import Mathlib

/-!
Shallow embedding of the gitgrade repository's signal-scoring and
tier-matching engine (`signals.py`, `tier_profiler.py`, `analyzer.py`).

Python strings are modelled as Lean `String`s; the Python substring test
`sub in s`, `s.lower()`, `s.startswith(p)` and `len(s.split())` are given
structurally recursive models over the underlying character lists so that
concrete instances reduce in the kernel.  Python `int` is modelled as `Int`
and the float division in `signal_commits` as exact arithmetic over `ℚ`
(the spec describes the score with an exact floor).  A file-tree entry is a
record whose `"path"` field may be absent (`Option String`), mirroring
`item.get("path", "")`.
-/

/-- Model of Python `s.lower()` (ASCII-faithful): lower-case every character. -/
def lowerStr (s : String) : String := ⟨s.data.map Char.toLower⟩

/-- `isPrefixChars needle l` holds when `needle` is a prefix of `l`. -/
def isPrefixChars : List Char → List Char → Bool
  | [], _ => true
  | _ :: _, [] => false
  | c :: cs, d :: ds => c == d && isPrefixChars cs ds

/-- Model of Python `sub in s` (substring containment). -/
def strIn (sub : String) (s : String) : Bool :=
  go sub.data s.data
where go (needle : List Char) : List Char → Bool
  | [] => isPrefixChars needle []
  | d :: ds => isPrefixChars needle (d :: ds) || go needle ds

/-- Model of Python `s.startswith(p)`. -/
def startsWithStr (s p : String) : Bool := isPrefixChars p.data s.data

/-- Counts maximal runs of non-whitespace characters; the boolean says
whether we are currently inside a word. -/
def wordCountAux : Bool → List Char → Nat
  | _, [] => 0
  | inWord, c :: cs =>
    if c.isWhitespace then wordCountAux false cs
    else (if inWord then 0 else 1) + wordCountAux true cs

/-- Model of Python `len(s.split())`: number of whitespace-separated tokens. -/
def wordCount (s : String) : Nat := wordCountAux false s.data

/-- One entry of the fetched file tree.  The `"path"` key of the underlying
dictionary may be missing, hence `Option String`; `item.get("path", "")`
is `pathOf`. -/
structure FileTreeEntry where
  path : Option String
deriving DecidableEq

/-- Model of `item.get("path", "")`. -/
def pathOf (e : FileTreeEntry) : String := e.path.getD ""

/-- One fetched commit record (`{message, author, date, sha}`). -/
structure Commit where
  message : String
  author : String
  date : String
  sha : String
deriving DecidableEq

/-- `path.split("/")[0]` when `len(path.split("/")) > 1`, i.e. the leading
segment of a path that contains the separator `/`; `none` for a path with
no separator (a file at repository root contributes no folder). -/
def topFolder (p : String) : Option String :=
  if p.data.contains '/' then some ⟨p.data.takeWhile (· ≠ '/')⟩ else none

/-- `SignalDetector._extract_folders`: the set of distinct top-level folder
names, modelled as a duplicate-free list in first-appearance order. -/
def extract_folders (tree : List FileTreeEntry) : List String :=
  tree.foldl
    (fun acc item =>
      match topFolder (pathOf item) with
      | some f => if f ∈ acc then acc else acc ++ [f]
      | none => acc)
    []

/-- The `semantic_keywords["good"]` list of `signal_structure`. -/
def goodKeywords : List String :=
  ["src", "tests", "test", "docs", "config", "models", "controllers",
   "services", "api", "database", "auth", "ui", "components", "views"]

/-- The `semantic_keywords["bad"]` list of `signal_structure`. -/
def badKeywords : List String :=
  ["utils", "helpers", "misc", "constants", "functions", "lib", "tools"]

/-- `SignalDetector.signal_structure`: scores the folder layout. -/
def signal_structure (tree : List FileTreeEntry) : Int × String :=
  let folder_names := extract_folders tree
  let good_count := folder_names.countP (fun f => goodKeywords.contains (lowerStr f))
  let bad_count := folder_names.countP (fun f => badKeywords.contains (lowerStr f))
  let total_folders := folder_names.length
  let score : Int :=
    if total_folders = 0 then 5
    else if bad_count > good_count then 8
    else if good_count ≥ 3 then 18
    else if good_count ≥ 1 then 12
    else 5
  let reason :=
    if folder_names ≠ [] then
      "Folders: " ++ String.intercalate ", " (folder_names.take 5)
    else "Flat structure"
  (score, reason)

/-- The five section-keyword groups of `signal_documentation`. -/
def sectionKeywordGroups : List (List String) :=
  [["overview", "about", "description", "what is"],
   ["setup", "installation", "install", "getting started"],
   ["usage", "how to use", "tutorial", "examples"],
   ["architecture", "design", "structure"],
   ["contributing", "contribution", "contribute"]]

/-- `SignalDetector.signal_documentation`.  Note the faithful rendering of
the source line `has_examples = "```"`: the variable is bound to the
constant string of three backticks (not to a containment test), and the
scoring line asks for its Python truthiness, i.e. non-emptiness. -/
def signal_documentation (readme : String) : Int × String :=
  if readme = "" then (0, "No README found")
  else
    let readme_lower := lowerStr readme
    let found_sections : Nat :=
      sectionKeywordGroups.countP (fun kws => kws.any (fun kw => strIn kw readme_lower))
    let has_examples : String := "```"
    let has_structure : Bool := readme.data.length > 500
    let score : Int :=
      min 20 ((found_sections : Int) * 3 + (if has_examples ≠ "" then 3 else 0)
               + (if has_structure then 2 else 0))
    let reason :=
      "Found " ++ toString found_sections ++ "/5 key sections, "
        ++ (if has_examples ≠ "" then "has examples" else "no examples")
    (score, reason)

/-- `SignalDetector.signal_tests`: test presence and sophistication. -/
def signal_tests (tree : List FileTreeEntry) : Int × String :=
  let test_files := (tree.map pathOf).filter (fun p => strIn "test" (lowerStr p))
  let unit_count :=
    test_files.countP (fun f => strIn "unit" (lowerStr f) || strIn "_test" f)
  let integration_count :=
    test_files.countP (fun f => strIn "integration" (lowerStr f) || strIn "e2e" (lowerStr f))
  let coverage :=
    (tree.map pathOf).any (fun f => strIn "coverage" (lowerStr f) || strIn ".coveragerc" f)
  let config :=
    (tree.map pathOf).any
      (fun f => strIn "pytest.ini" f || strIn "jest.config" f || strIn "vitest" f)
  let test_count := test_files.length
  if test_count = 0 then (0, "No tests found")
  else if coverage || config then
    (18, toString test_count ++ " test files with coverage config")
  else if unit_count > 0 && integration_count > 0 then
    (15, "Unit + Integration tests (" ++ toString test_count ++ " files)")
  else if test_count > 5 then (12, toString test_count ++ " test files")
  else (6, "Basic tests (" ++ toString test_count ++ " files)")

/-- The conventional-commit message markers checked by `signal_commits`. -/
def conventionalMarkers : List String :=
  ["feat:", "fix:", "docs:", "style:", "test:", "refactor:", "chore:"]

/-- The `quality_keywords` list of `signal_commits`. -/
def qualityKeywords : List String :=
  ["add", "fix", "refactor", "improve", "update", "implement", "feature"]

/-- Whether a lower-cased message starts with a conventional marker. -/
def isConventional (c : Commit) : Bool :=
  conventionalMarkers.any (fun p => startsWithStr (lowerStr c.message) p)

/-- Whether a message is "descriptive": more than 3 words and containing a
quality keyword (both checks on the lower-cased message). -/
def isDescriptive (c : Commit) : Bool :=
  wordCount (lowerStr c.message) > 3
    && qualityKeywords.any (fun kw => strIn kw (lowerStr c.message))

/-- `SignalDetector.signal_commits`.  The float expression
`(conventional_count + descriptive_count) / max(len(self.commits), 1)` and
the truncation `int(quality_ratio * 20)` are modelled exactly over `ℚ`;
the truncation is `Int.floor` since the ratio is non-negative. -/
def signal_commits (commits : List Commit) : Int × String :=
  if commits = [] then (0, "No commits")
  else
    let inspected := commits.take 50
    let conventional_count := inspected.countP (fun c => isConventional c)
    let descriptive_count := inspected.countP (fun c => isDescriptive c)
    let quality_ratio : ℚ :=
      ((conventional_count : ℚ) + (descriptive_count : ℚ)) / (max commits.length 1 : ℚ)
    let score : Int := min 20 ⌊quality_ratio * 20⌋
    let reason :=
      "Conventional: " ++ toString conventional_count ++ ", Descriptive: "
        ++ toString descriptive_count ++ "/" ++ toString inspected.length
    (score, reason)

/-- The dependency-file name fragments of `signal_dependencies`. -/
def depFileNames : List String :=
  ["requirements.txt", "package.json", "Gemfile", "pom.xml", "go.mod"]

/-- The lock-file name fragments of `signal_dependencies`. -/
def lockFileNames : List String :=
  ["package-lock.json", "yarn.lock", "Pipfile.lock", "poetry.lock"]

/-- `SignalDetector.signal_dependencies`. -/
def signal_dependencies (tree : List FileTreeEntry) : Int × String :=
  let dep_files :=
    (tree.map pathOf).filter (fun p => depFileNames.any (fun df => strIn df p))
  let lock_files :=
    (tree.map pathOf).filter (fun p => lockFileNames.any (fun lf => strIn lf p))
  if dep_files = [] then (0, "No dependency files")
  else if lock_files ≠ [] then (18, "Dependency files + lock files present")
  else if dep_files.length > 1 then
    (14, toString dep_files.length ++ " dependency files")
  else (10, "Basic dependency management")

/-- The five signal dimensions, in the fixed iteration order of the source's
dictionaries (`structure, documentation, tests, commits, dependencies`).
`struct` abbreviates the source key `"structure"` (a Lean keyword). -/
inductive Dim where
  | struct
  | documentation
  | tests
  | commits
  | dependencies
deriving DecidableEq

/-- The dictionary iteration order of the five dimensions. -/
def dims : List Dim := [.struct, .documentation, .tests, .commits, .dependencies]

/-- `SignalDetector.get_all_signals`: all five `(score, rationale)` pairs,
as a function of the dimension key.  `branches` and `languages` are stored
by the Python constructor but used by no extractor. -/
def get_all_signals (tree : List FileTreeEntry) (readme : String)
    (commits : List Commit) : Dim → Int × String :=
  fun d =>
    match d with
    | .struct => signal_structure tree
    | .documentation => signal_documentation readme
    | .tests => signal_tests tree
    | .commits => signal_commits commits
    | .dependencies => signal_dependencies tree

/-- `TierProfile.compute_profile_vector`: keep only the scores. -/
def compute_profile_vector (signals : Dim → Int × String) : Dim → Int :=
  fun d => (signals d).1

/-- The three maturity tiers. -/
inductive Tier where
  | beginner
  | intermediate
  | advanced
deriving DecidableEq

/-- `TierProfile.TIER_PROFILES`: the fixed reference vectors. -/
def TIER_PROFILES : Tier → Dim → Int
  | .beginner => fun d =>
    match d with
    | .struct => 5 | .documentation => 3 | .tests => 0 | .commits => 4 | .dependencies => 2
  | .intermediate => fun d =>
    match d with
    | .struct => 14 | .documentation => 12 | .tests => 10 | .commits => 12 | .dependencies => 12
  | .advanced => fun d =>
    match d with
    | .struct => 18 | .documentation => 18 | .tests => 18 | .commits => 16 | .dependencies => 18

/-- `sum(vec1[k] * vec2[k] for k in vec1.keys())`. -/
def dotProduct (v w : Dim → Int) : Int := (dims.map (fun d => v d * w d)).sum

/-- `math.sqrt(sum(v**2 for v in vec.values()))`. -/
noncomputable def magnitude (v : Dim → Int) : ℝ :=
  Real.sqrt (((dims.map (fun d => v d ^ 2)).sum : Int) : ℝ)

/-- `TierProfile.cosine_similarity`: `0` when either magnitude is `0`,
otherwise `dot_product / (mag1 * mag2)`. -/
noncomputable def cosine_similarity (v w : Dim → Int) : ℝ :=
  if magnitude v = 0 ∨ magnitude w = 0 then 0
  else (dotProduct v w : ℝ) / (magnitude v * magnitude w)

/-- The dictionary iteration order of `TIER_PROFILES`. -/
def tierList : List Tier := [.beginner, .intermediate, .advanced]

/-- `TierProfile.match_tier`: fold over the tiers keeping the strictly best
similarity, starting from `(None, -1)`. -/
noncomputable def match_tier (profile_vector : Dim → Int) : Option Tier × ℝ :=
  tierList.foldl
    (fun best tier =>
      let similarity := cosine_similarity profile_vector (TIER_PROFILES tier)
      if similarity > best.2 then (some tier, similarity) else best)
    (none, -1)

/-- `tier_order.index(current_tier)` for `tier_order = [beginner, intermediate, advanced]`. -/
def tierIdx : Tier → Nat
  | .beginner => 0
  | .intermediate => 1
  | .advanced => 2

/-- The `next_tier` selection of `TierProfile.compute_gaps`: `"advanced"`
when the current index is 2, otherwise `tier_order[current_idx + 1]`. -/
def nextTier (t : Tier) : Tier :=
  if tierIdx t = 2 then .advanced else tierList.getD (tierIdx t + 1) .advanced

/-- `TierProfile.compute_gaps`: per-dimension shortfall to the next tier. -/
def compute_gaps (profile_vector : Dim → Int) (current_tier : Tier) : Dim → Int :=
  fun d => max 0 (TIER_PROFILES (nextTier current_tier) d - profile_vector d)

/-- The `display_names` table of `RepositoryAnalyzer.analyze`. -/
def display_names : Dim → String
  | .struct => "Project Structure"
  | .documentation => "Documentation"
  | .tests => "Testing"
  | .commits => "Commit Quality"
  | .dependencies => "Dependency Management"

/-- Stable insertion of a `(dimension, score)` pair into a list sorted by
descending score, as produced by Python's stable `sorted(..., reverse=True)`:
an element inserted later is placed after earlier elements of equal score. -/
def insertDesc (x : Dim × Int) : List (Dim × Int) → List (Dim × Int)
  | [] => [x]
  | y :: ys => if x.2 > y.2 then x :: y :: ys else y :: insertDesc x ys

/-- Stable insertion into a list sorted by ascending score (`sorted(...)`). -/
def insertAsc (x : Dim × Int) : List (Dim × Int) → List (Dim × Int)
  | [] => [x]
  | y :: ys => if x.2 < y.2 then x :: y :: ys else y :: insertAsc x ys

/-- `sorted(profile_vector.items(), key=..., reverse=True)[:2]`. -/
def strengthsOf (profile : Dim → Int) : List (Dim × Int) :=
  (((dims.map (fun d => (d, profile d))).foldr insertDesc [])).take 2

/-- `sorted(profile_vector.items(), key=...)[:2]`. -/
def weaknessesOf (profile : Dim → Int) : List (Dim × Int) :=
  (((dims.map (fun d => (d, profile d))).foldr insertAsc [])).take 2

/-- The summary sentence of `RepositoryAnalyzer.analyze`. -/
def summaryOf (profile : Dim → Int) : String :=
  "Strong in "
    ++ String.intercalate ", " ((strengthsOf profile).map (fun s => display_names s.1))
    ++ ". Needs improvement in "
    ++ String.intercalate ", " ((weaknessesOf profile).map (fun w => display_names w.1))
    ++ "."

/-- The `display_roadmap` table of `RepositoryAnalyzer._generate_roadmap`. -/
def display_roadmap : Dim → String
  | .struct => "📁 Reorganize into semantic folders (src/, tests/, docs/, config/) instead of utils/helpers"
  | .documentation => "📝 Add comprehensive README: Overview, Setup, Usage, Architecture sections with code examples"
  | .tests => "✅ Implement test strategy: unit tests for core logic, integration tests for APIs, coverage >70%"
  | .commits => "📌 Use conventional commits (feat:, fix:, docs:) with descriptive messages, commit regularly"
  | .dependencies => "📦 Add lock files (package-lock.json, poetry.lock) and pin dependency versions"

/-- The three fixed advanced recommendations appended when the profile sum
exceeds 80. -/
def advancedRecommendations : List String :=
  ["🚀 Add GitHub Actions for CI/CD: automated testing and deployment",
   "🌐 Set up issue templates and project boards for better collaboration",
   "📊 Add code coverage badges and dependency update workflows"]

/-- The fallback roadmap entry. -/
def fallbackRoadmap : String :=
  "🌟 Excellent repository! Consider open-sourcing or contributing to existing projects."

/-- The high-priority roadmap entries (`gap > 8`), in dictionary order. -/
def roadmapHigh (gaps : Dim → Int) : List String :=
  (dims.filter (fun d => gaps d > 8)).map
    (fun d => "🔥 HIGH PRIORITY: " ++ display_roadmap d)

/-- The medium-priority roadmap entries (`4 <= gap <= 8`), in dictionary order. -/
def roadmapMedium (gaps : Dim → Int) : List String :=
  (dims.filter (fun d => 4 ≤ gaps d ∧ gaps d ≤ 8)).map
    (fun d => "📈 " ++ display_roadmap d)

/-- `RepositoryAnalyzer._generate_roadmap`: high-priority entries, then
medium, then the bonus block for profile sums above 80, then the fallback
when nothing was emitted; finally truncated to 5. -/
def generate_roadmap (gaps : Dim → Int) (profile : Dim → Int) : List String :=
  let roadmap :=
    roadmapHigh gaps ++ roadmapMedium gaps
      ++ (if (dims.map profile).sum > 80 then advancedRecommendations else [])
  let roadmap := if roadmap = [] then [fallbackRoadmap] else roadmap
  roadmap.take 5

/-- The success payload of `RepositoryAnalyzer.analyze` (the fields computed
by the scoring core; `repo_info` and `languages` are opaque passthroughs). -/
structure AnalysisSuccess where
  score : Int
  tier : Tier
  tier_similarity : ℝ
  profile : Dim → Int
  gaps : Dim → Int
  signals : Dim → String
  summary : String
  roadmap : List String
  repo_info : String
  commit_count : Nat
  branch_count : Nat
  languages : List (String × Nat)

/-- The result record of `RepositoryAnalyzer.analyze`: either the success
payload (`"status": "success"`) or a record holding only the error message
(`{"error": ..., "status": "error"}`). -/
inductive AnalysisResult where
  | success (r : AnalysisSuccess) : AnalysisResult
  | failure (message : String) : AnalysisResult

/-- `RepositoryAnalyzer.analyze`.  Each fetch stage is modelled as an
`Except String` value (exception or result), sequenced in source order; the
single `try/except` around the whole pipeline maps the first raised
exception `e` to the record `{"error": f"Analysis failed: {e}", "status":
"error"}`.  README base64 decoding is outside the modelled core: `readme`
is the decoded text.  The `None` tier (unreachable for the non-negative
profiles produced by the extractors) would raise on `tier.title()` in the
source and is likewise caught by the same `except` block. -/
noncomputable def analyze (repo_info : Except String String)
    (file_tree : Except String (List FileTreeEntry))
    (readme : Except String String)
    (commits : Except String (List Commit))
    (branches : Except String (List String))
    (languages : Except String (List (String × Nat))) : AnalysisResult :=
  match repo_info with
  | .error e => .failure ("Analysis failed: " ++ e)
  | .ok repo_info =>
    match file_tree with
    | .error e => .failure ("Analysis failed: " ++ e)
    | .ok file_tree =>
      match readme with
      | .error e => .failure ("Analysis failed: " ++ e)
      | .ok readme =>
        match commits with
        | .error e => .failure ("Analysis failed: " ++ e)
        | .ok commits =>
          match branches with
          | .error e => .failure ("Analysis failed: " ++ e)
          | .ok branches =>
            match languages with
            | .error e => .failure ("Analysis failed: " ++ e)
            | .ok languages =>
              let signals := get_all_signals file_tree readme commits
              let profile_vector := compute_profile_vector signals
              match match_tier profile_vector with
              | (none, _) =>
                .failure "Analysis failed: 'NoneType' object has no attribute 'title'"
              | (some tier, similarity) =>
                let gaps := compute_gaps profile_vector tier
                let score := (dims.map profile_vector).sum
                .success
                  { score := min 100 (max 0 score)
                    tier := tier
                    tier_similarity := similarity * 100
                    profile := profile_vector
                    gaps := gaps
                    signals := fun d => (signals d).2
                    summary := summaryOf profile_vector
                    roadmap := generate_roadmap gaps profile_vector
                    repo_info := repo_info
                    commit_count := commits.length
                    branch_count := branches.length
                    languages := languages }

/-! ### IEEE-754 binary64 rounding model

The Python program computes `cosine_similarity` with binary64 floats.
For the profile `(1,1,0,0,0)` the integer dot product and the integer sum
of squares are both exactly 2, so the float computation is
`2 / (math.sqrt(2) * math.sqrt(2))`; each operation is correctly rounded
(round-to-nearest), which the following model captures. -/

/-- A rational is representable as an IEEE-754 binary64 value: an integer
significand of magnitude below `2^53` times an integer power of two (the
tiny exponent range needed here is far from overflow and underflow). -/
def FpRep (q : ℚ) : Prop :=
  ∃ m e : ℤ, m.natAbs < 2 ^ 53 ∧ q = (m : ℚ) * 2 ^ e

/-- `q` is a binary64 value nearest to the real `x`: the correct rounding
(round-to-nearest) that IEEE 754 requires of `math.sqrt`, `*` and `/`. -/
def NearestFp (x : ℝ) (q : ℚ) : Prop :=
  FpRep q ∧ ∀ q' : ℚ, FpRep q' → |x - (q : ℝ)| ≤ |x - (q' : ℝ)|

/-- `math.sqrt(2)` as the program computes it: the binary64 value nearest
to the real `√2`. -/
def sqrt2F : ℚ := 6369051672525773 / 2 ^ 52

/-- `math.sqrt(2) * math.sqrt(2)` in binary64: `2.0000000000000004`. -/
def sqSqrt2F : ℚ := 4503599627370497 / 2 ^ 51

/-- `2 / (math.sqrt(2) * math.sqrt(2))` in binary64: `0.9999999999999998`. -/
def cosFloatF : ℚ := 4503599627370495 / 2 ^ 52

/-- The profile vector `(1, 1, 0, 0, 0)` used as the floating-point
counterexample input to `cosine_similarity`. -/
def vOneOne : Dim → Int
  | .struct => 1
  | .documentation => 1
  | _ => 0

/-! ### Helper lemmas -/

theorem str_append_ne_empty (a b : String) (h : a ≠ "") : a ++ b ≠ "" := by
  intro hc
  apply h
  have hl := congrArg String.length hc
  rw [String.length_append] at hl
  have h3 : a.length = a.data.length := rfl
  have h2 : String.length "" = 0 := rfl
  have h0 : a.data.length = 0 := by omega
  have h4 : a.data = [] := List.length_eq_zero.mp h0
  cases a with
  | mk d =>
    cases h4
    rfl

theorem str_append_ne_empty_right (a b : String) (h : b ≠ "") : a ++ b ≠ "" := by
  intro hc
  apply h
  have hl := congrArg String.length hc
  rw [String.length_append] at hl
  have h3 : b.length = b.data.length := rfl
  have h2 : String.length "" = 0 := rfl
  have h0 : b.data.length = 0 := by omega
  have h4 : b.data = [] := List.length_eq_zero.mp h0
  cases b with
  | mk d =>
    cases h4
    rfl

theorem signal_structure_bounds (tree : List FileTreeEntry) :
    0 ≤ (signal_structure tree).1 ∧ (signal_structure tree).1 ≤ 20
      ∧ (signal_structure tree).2 ≠ "" := by
  simp only [signal_structure]
  split_ifs <;> refine ⟨?_, ?_, ?_⟩ <;>
    first
      | decide
      | exact str_append_ne_empty "Folders: " _ (by decide)

theorem signal_documentation_bounds (readme : String) :
    0 ≤ (signal_documentation readme).1 ∧ (signal_documentation readme).1 ≤ 20
      ∧ (signal_documentation readme).2 ≠ "" := by
  simp only [signal_documentation]
  split_ifs <;> refine ⟨?_, ?_, ?_⟩ <;>
    first
      | decide
      | exact le_min (by norm_num) (by positivity)
      | exact min_le_left _ _
      | exact str_append_ne_empty "Found " _ (by decide)

theorem signal_tests_bounds (tree : List FileTreeEntry) :
    0 ≤ (signal_tests tree).1 ∧ (signal_tests tree).1 ≤ 20
      ∧ (signal_tests tree).2 ≠ "" := by
  simp only [signal_tests]
  split_ifs <;> refine ⟨?_, ?_, ?_⟩ <;>
    first
      | decide
      | exact str_append_ne_empty_right _ " test files with coverage config" (by decide)
      | exact str_append_ne_empty "Unit + Integration tests (" _ (by decide)
      | exact str_append_ne_empty_right _ " test files" (by decide)
      | exact str_append_ne_empty "Basic tests (" _ (by decide)
      | norm_num

theorem signal_commits_bounds (commits : List Commit) :
    0 ≤ (signal_commits commits).1 ∧ (signal_commits commits).1 ≤ 20
      ∧ (signal_commits commits).2 ≠ "" := by
  simp only [signal_commits]
  split_ifs <;> refine ⟨?_, ?_, ?_⟩ <;>
    first
      | decide
      | exact le_min (by norm_num) (Int.floor_nonneg.mpr (by positivity))
      | exact min_le_left _ _
      | exact str_append_ne_empty "Conventional: " _ (by decide)

theorem signal_dependencies_bounds (tree : List FileTreeEntry) :
    0 ≤ (signal_dependencies tree).1 ∧ (signal_dependencies tree).1 ≤ 20
      ∧ (signal_dependencies tree).2 ≠ "" := by
  simp only [signal_dependencies]
  split_ifs <;> refine ⟨?_, ?_, ?_⟩ <;>
    first
      | decide
      | exact str_append_ne_empty_right _ " dependency files" (by decide)
      | norm_num

/-! ### Claim theorems -/

/-- Claim C7: every signal extractor returns a score in [0,20] and a
non-empty rationale, the raw profile sum lies in [0,100], and the
aggregator's clamped total `min(100, max(0, sum))` lies in [0,100]. -/
theorem signals_bounded_total_clamped (tree : List FileTreeEntry) (readme : String)
    (commits : List Commit) (branches : List String) (languages : List (String × Nat)) :
    (∀ d : Dim, 0 ≤ (get_all_signals tree readme commits d).1
        ∧ (get_all_signals tree readme commits d).1 ≤ 20
        ∧ (get_all_signals tree readme commits d).2 ≠ "")
      ∧ (0 ≤ (dims.map (compute_profile_vector (get_all_signals tree readme commits))).sum
          ∧ (dims.map (compute_profile_vector (get_all_signals tree readme commits))).sum ≤ 100)
      ∧ (0 ≤ min 100 (max 0 ((dims.map (compute_profile_vector (get_all_signals tree readme commits))).sum))
          ∧ min 100 (max 0 ((dims.map (compute_profile_vector (get_all_signals tree readme commits))).sum)) ≤ 100) := by
  have h1 := signal_structure_bounds tree
  have h2 := signal_documentation_bounds readme
  have h3 := signal_tests_bounds tree
  have h4 := signal_commits_bounds commits
  have h5 := signal_dependencies_bounds tree
  refine ⟨?_, ?_, ?_⟩
  · intro d
    cases d
    · exact h1
    · exact h2
    · exact h3
    · exact h4
    · exact h5
  · simp only [dims, compute_profile_vector, get_all_signals, List.map_cons, List.map_nil,
      List.sum_cons, List.sum_nil]
    omega
  · exact ⟨le_min (by norm_num) (le_max_left 0 _), min_le_left _ _⟩

/-- Claim C6: `compute_gaps` uses the tier immediately above the current one
(`advanced` maps to itself), every gap is `max 0 (nextRef[d] - profile[d])`
and hence non-negative, and the `advanced` reference profile has all-zero
gaps at tier `advanced`. -/
theorem compute_gaps_spec (p : Dim → Int) (t : Tier) :
    (∀ d, compute_gaps p t d = max 0 (TIER_PROFILES (nextTier t) d - p d))
      ∧ (∀ d, 0 ≤ compute_gaps p t d)
      ∧ tierIdx (nextTier t) = min (tierIdx t + 1) 2
      ∧ (∀ d, compute_gaps (TIER_PROFILES Tier.advanced) Tier.advanced d = 0) := by
  refine ⟨fun d => rfl, fun d => le_max_left 0 _, ?_, ?_⟩
  · cases t <;> decide
  · intro d
    cases d <;> decide

/-- Claim C8: the roadmap has at most 5 entries and decomposes, in order, as
high-priority entries (gap > 8), then medium-priority entries (gap in
[4,8]), then the three advanced recommendations (only when the profile sum
exceeds 80), then the fallback (only when nothing else was emitted),
truncated to 5. -/
theorem generate_roadmap_priority_order (gaps profile : Dim → Int) :
    (generate_roadmap gaps profile).length ≤ 5
      ∧ generate_roadmap gaps profile =
        ((roadmapHigh gaps ++ roadmapMedium gaps
            ++ (if (dims.map profile).sum > 80 then advancedRecommendations else []))
          ++ (if roadmapHigh gaps ++ roadmapMedium gaps
                ++ (if (dims.map profile).sum > 80 then advancedRecommendations else []) = []
              then [fallbackRoadmap] else [])).take 5 := by
  constructor
  · have gen : ∀ l : List String, (l.take 5).length ≤ 5 := by
      intro l
      rw [List.length_take]
      exact min_le_left _ _
    exact gen _
  · simp only [generate_roadmap]
    by_cases hL : roadmapHigh gaps ++ roadmapMedium gaps
        ++ (if (dims.map profile).sum > 80 then advancedRecommendations else []) = []
    · rw [if_pos hL, if_pos hL, hL]
      simp
    · rw [if_neg hL, if_neg hL]
      simp

/-- Claim C9: when a fetch stage raises (modelled as `Except.error e`, the
earlier stages having succeeded), `analyze` returns the single uniform
error record `{"error": "Analysis failed: " ++ e, "status": "error"}`,
which carries no scoring output. -/
theorem analyze_fetch_failure_uniform_error (e ri : String)
    (ftv : List FileTreeEntry) (rmv : String) (cmv : List Commit) (brv : List String)
    (ft : Except String (List FileTreeEntry)) (rm : Except String String)
    (cm : Except String (List Commit)) (br : Except String (List String))
    (lg : Except String (List (String × Nat))) :
    analyze (.error e) ft rm cm br lg = .failure ("Analysis failed: " ++ e)
      ∧ analyze (.ok ri) (.error e) rm cm br lg = .failure ("Analysis failed: " ++ e)
      ∧ analyze (.ok ri) (.ok ftv) (.error e) cm br lg = .failure ("Analysis failed: " ++ e)
      ∧ analyze (.ok ri) (.ok ftv) (.ok rmv) (.error e) br lg
          = .failure ("Analysis failed: " ++ e)
      ∧ analyze (.ok ri) (.ok ftv) (.ok rmv) (.ok cmv) (.error e) lg
          = .failure ("Analysis failed: " ++ e)
      ∧ analyze (.ok ri) (.ok ftv) (.ok rmv) (.ok cmv) (.ok brv) (.error e)
          = .failure ("Analysis failed: " ++ e) :=
  ⟨rfl, rfl, rfl, rfl, rfl, rfl⟩

/-- Claim C10: a file-tree entry without a `"path"` field is read as the
empty path; it yields no top-level folder, is never counted as a test,
dependency or lock file, and inserting it anywhere in the tree changes
neither the folder classifier nor the structure, tests or dependencies
extractors. -/
theorem missing_path_entry_inert (e : FileTreeEntry) (pre post : List FileTreeEntry)
    (h : e.path = none) :
    pathOf e = ""
      ∧ topFolder (pathOf e) = none
      ∧ strIn "test" (lowerStr (pathOf e)) = false
      ∧ (depFileNames.any fun df => strIn df (pathOf e)) = false
      ∧ (lockFileNames.any fun lf => strIn lf (pathOf e)) = false
      ∧ extract_folders (pre ++ e :: post) = extract_folders (pre ++ post)
      ∧ signal_structure (pre ++ e :: post) = signal_structure (pre ++ post)
      ∧ signal_tests (pre ++ e :: post) = signal_tests (pre ++ post)
      ∧ signal_dependencies (pre ++ e :: post) = signal_dependencies (pre ++ post) := by
  have hp : pathOf e = "" := by simp [pathOf, h]
  have ht : topFolder (pathOf e) = none := by rw [hp]; decide
  have htest : strIn "test" (lowerStr (pathOf e)) = false := by rw [hp]; decide
  have hdep : (depFileNames.any fun df => strIn df (pathOf e)) = false := by rw [hp]; decide
  have hlock : (lockFileNames.any fun lf => strIn lf (pathOf e)) = false := by rw [hp]; decide
  have hcov : (strIn "coverage" (lowerStr (pathOf e)) || strIn ".coveragerc" (pathOf e)) = false := by
    rw [hp]; decide
  have hcfg : (strIn "pytest.ini" (pathOf e) || strIn "jest.config" (pathOf e)
      || strIn "vitest" (pathOf e)) = false := by
    rw [hp]; decide
  have hfold : extract_folders (pre ++ e :: post) = extract_folders (pre ++ post) := by
    simp only [extract_folders, List.foldl_append, List.foldl_cons, ht]
  refine ⟨hp, ht, htest, hdep, hlock, hfold, ?_, ?_, ?_⟩
  · simp only [signal_structure, hfold]
  · simp only [signal_tests, List.map_append, List.map_cons, List.filter_append,
      List.filter_cons, List.any_append, List.any_cons, htest, hcov, hcfg]
    simp
  · simp only [signal_dependencies, List.map_append, List.map_cons, List.filter_append,
      List.filter_cons, List.any_append, List.any_cons, hdep, hlock]
    simp

/-- Witness for `missing_path_entry_inert` at a concrete pathless entry. -/
theorem missing_path_entry_inert_witness :
    pathOf ⟨none⟩ = ""
      ∧ topFolder (pathOf ⟨none⟩) = none
      ∧ strIn "test" (lowerStr (pathOf ⟨none⟩)) = false
      ∧ (depFileNames.any fun df => strIn df (pathOf ⟨none⟩)) = false
      ∧ (lockFileNames.any fun lf => strIn lf (pathOf ⟨none⟩)) = false
      ∧ extract_folders ([] ++ ⟨none⟩ :: [⟨some "src/a.py"⟩])
          = extract_folders ([] ++ [⟨some "src/a.py"⟩])
      ∧ signal_structure ([] ++ ⟨none⟩ :: [⟨some "src/a.py"⟩])
          = signal_structure ([] ++ [⟨some "src/a.py"⟩])
      ∧ signal_tests ([] ++ ⟨none⟩ :: [⟨some "src/a.py"⟩])
          = signal_tests ([] ++ [⟨some "src/a.py"⟩])
      ∧ signal_dependencies ([] ++ ⟨none⟩ :: [⟨some "src/a.py"⟩])
          = signal_dependencies ([] ++ [⟨some "src/a.py"⟩]) :=
  missing_path_entry_inert ⟨none⟩ [] [⟨some "src/a.py"⟩] rfl

/-- Claim C1 (code evaluation): for the one-character README `"x"` — which
contains no triple-backtick fenced block, no section keywords, and has
length 1 — the documentation signal returns 3 rather than the specified 0,
because `has_examples` is the constant (always truthy) string of three
backticks, so the +3 code-block bonus is granted to every non-empty
README; the rationale even reports "has examples".  The empty README
still scores 0. -/
theorem signal_documentation_example_bonus_bug :
    (signal_documentation "x").1 = 3
      ∧ strIn "```" "x" = false
      ∧ (signal_documentation "").1 = 0
      ∧ (signal_documentation "x").2 = "Found 0/5 key sections, has examples" := by
  decide

/-- Claim C3: the commits signal is 0 on the empty list and otherwise
`min 20 ⌊(conventional + descriptive) / totalCount * 20⌋`, counting over at
most the first 50 commits but dividing by the full list length; the score
is always in [0,20]; and 10 commits all starting with `"feat:"` score 20. -/
theorem signal_commits_score_spec (commits : List Commit) :
    ((signal_commits commits).1 =
        if commits = [] then 0
        else
          min 20
            ⌊((((commits.take 50).countP fun c => isConventional c) : ℚ)
                + (((commits.take 50).countP fun c => isDescriptive c) : ℚ))
              / (commits.length : ℚ) * 20⌋)
      ∧ 0 ≤ (signal_commits commits).1 ∧ (signal_commits commits).1 ≤ 20
      ∧ (signal_commits (List.replicate 10 ⟨"feat: x", "", "", ""⟩)).1 = 20 := by
  have hb := signal_commits_bounds commits
  refine ⟨?_, hb.1, hb.2.1, ?_⟩
  · by_cases hemp : commits = []
    · simp [signal_commits, hemp]
    · have hlen : 1 ≤ commits.length :=
        Nat.one_le_iff_ne_zero.mpr (fun h0 => hemp (List.length_eq_zero.mp h0))
      have hmax : (max (commits.length : ℚ) 1) = (commits.length : ℚ) :=
        max_eq_left (by exact_mod_cast hlen)
      simp only [signal_commits, if_neg hemp, hmax]
  · have hc : ((List.replicate 10 (⟨"feat: x", "", "", ""⟩ : Commit)).take 50).countP
        (fun c => isConventional c) = 10 := by decide
    have hd : ((List.replicate 10 (⟨"feat: x", "", "", ""⟩ : Commit)).take 50).countP
        (fun c => isDescriptive c) = 0 := by decide
    have hl : (List.replicate 10 (⟨"feat: x", "", "", ""⟩ : Commit)).length = 10 := by decide
    simp only [signal_commits, hc, hd, hl]
    rw [if_neg (by decide)]
    norm_num

/-- Claim C2: the tests signal follows the fixed decision order on the first
matching rule — no path containing "test" gives 0; else the coverage or
config marker gives 18; else unit plus integration markers give 15; else
more than 5 test paths give 12; else 6.  A tree of 3 test paths, one
containing "pytest.ini", scores 18. -/
theorem signal_tests_decision_order (tree : List FileTreeEntry) :
    ((signal_tests tree).1 =
        if ((tree.map pathOf).countP fun p => strIn "test" (lowerStr p)) = 0 then 0
        else if (∃ p ∈ tree.map pathOf,
                  (strIn "coverage" (lowerStr p) || strIn ".coveragerc" p) = true)
              ∨ (∃ p ∈ tree.map pathOf,
                  (strIn "pytest.ini" p || strIn "jest.config" p || strIn "vitest" p) = true)
            then 18
        else if (∃ p ∈ tree.map pathOf, strIn "test" (lowerStr p) = true
                  ∧ (strIn "unit" (lowerStr p) || strIn "_test" p) = true)
              ∧ (∃ p ∈ tree.map pathOf, strIn "test" (lowerStr p) = true
                  ∧ (strIn "integration" (lowerStr p) || strIn "e2e" (lowerStr p)) = true)
            then 15
        else if 5 < ((tree.map pathOf).countP fun p => strIn "test" (lowerStr p)) then 12
        else 6)
      ∧ (signal_tests [⟨some "tests/a.py"⟩, ⟨some "tests/b.py"⟩, ⟨some "pytest.ini"⟩]).1 = 18 := by
  refine ⟨?_, by decide⟩
  have e1 : ((tree.map pathOf).countP fun p => strIn "test" (lowerStr p))
      = ((tree.map pathOf).filter fun p => strIn "test" (lowerStr p)).length :=
    List.countP_eq_length_filter _ (tree.map pathOf)
  have i2 : ((((tree.map pathOf).any fun f => strIn "coverage" (lowerStr f) || strIn ".coveragerc" f)
        || (tree.map pathOf).any fun f => strIn "pytest.ini" f || strIn "jest.config" f || strIn "vitest" f) = true)
      ↔ ((∃ p ∈ tree.map pathOf, (strIn "coverage" (lowerStr p) || strIn ".coveragerc" p) = true)
        ∨ (∃ p ∈ tree.map pathOf, (strIn "pytest.ini" p || strIn "jest.config" p || strIn "vitest" p) = true)) := by
    simp [List.any_eq_true]
  have i3 : ((decide (0 < ((tree.map pathOf).filter fun p => strIn "test" (lowerStr p)).countP
          (fun f => strIn "unit" (lowerStr f) || strIn "_test" f))
        && decide (0 < ((tree.map pathOf).filter fun p => strIn "test" (lowerStr p)).countP
          (fun f => strIn "integration" (lowerStr f) || strIn "e2e" (lowerStr f)))) = true)
      ↔ ((∃ p ∈ tree.map pathOf, strIn "test" (lowerStr p) = true
            ∧ (strIn "unit" (lowerStr p) || strIn "_test" p) = true)
          ∧ (∃ p ∈ tree.map pathOf, strIn "test" (lowerStr p) = true
            ∧ (strIn "integration" (lowerStr p) || strIn "e2e" (lowerStr p)) = true)) := by
    simp [List.countP_pos_iff, List.mem_filter, and_assoc]
  simp only [signal_tests, apply_ite (@Prod.fst Int String), gt_iff_lt]
  simp only [e1, ← i2, ← i3]

theorem sumsq_eq_dot (v : Dim → Int) :
    (dims.map (fun d => v d ^ 2)).sum = dotProduct v v := by
  simp [dims, dotProduct, pow_two]

theorem magnitude_nonneg (v : Dim → Int) : 0 ≤ magnitude v := Real.sqrt_nonneg _

theorem exists_ne_zero_of_ne_zero (v : Dim → Int) (hv : v ≠ fun _ => 0) :
    ∃ d, v d ≠ 0 := by
  by_contra hc
  push_neg at hc
  exact hv (funext hc)

theorem dot_self_pos (v : Dim → Int) (hv : v ≠ fun _ => 0) : 0 < dotProduct v v := by
  obtain ⟨d, hd⟩ := exists_ne_zero_of_ne_zero v hv
  have h1 : 0 < v d * v d := mul_self_pos.mpr hd
  have n1 := mul_self_nonneg (v Dim.struct)
  have n2 := mul_self_nonneg (v Dim.documentation)
  have n3 := mul_self_nonneg (v Dim.tests)
  have n4 := mul_self_nonneg (v Dim.commits)
  have n5 := mul_self_nonneg (v Dim.dependencies)
  simp only [dotProduct, dims, List.map_cons, List.map_nil, List.sum_cons, List.sum_nil]
  cases d <;> linarith

/-- Representable values inside the binade `(2^a, 2^(a+1))` lie on the grid
of integer multiples of `2^(a-52)` (the ulp of that binade). -/
theorem fp_grid (a : ℤ) (q : ℚ) (hq : FpRep q) (h1 : (2:ℚ)^a < q) (h2 : q < (2:ℚ)^(a+1)) :
    ∃ k : ℤ, q = (k : ℚ) * 2 ^ (a - 52) := by
  obtain ⟨m, e, hm, rfl⟩ := hq
  by_cases he : a - 52 ≤ e
  · refine ⟨m * 2 ^ (e - (a - 52)).toNat, ?_⟩
    have ht : ((e - (a - 52)).toNat : ℤ) = e - (a - 52) := Int.toNat_of_nonneg (by omega)
    push_cast
    rw [← zpow_natCast (2:ℚ) (e - (a - 52)).toNat, ht, mul_assoc, ← zpow_add₀ (by norm_num : (2:ℚ) ≠ 0)]
    ring_nf
  · exfalso
    have he' : e ≤ a - 53 := by omega
    have hmq : (m : ℚ) ≤ 2 ^ 53 - 1 := by
      have : m ≤ 2 ^ 53 - 1 := by
        have := hm
        omega
      exact_mod_cast this
    have hpow : (2:ℚ) ^ e ≤ 2 ^ (a - 53) := by
      apply zpow_le_zpow_right₀ (by norm_num)
      exact he'
    have hp0 : (0:ℚ) < 2 ^ e := by positivity
    have hb : (m : ℚ) * 2 ^ e ≤ (2 ^ 53 - 1) * 2 ^ (a - 53) := by
      apply mul_le_mul hmq hpow (le_of_lt hp0)
      norm_num
    have hlt : ((2:ℚ) ^ 53 - 1) * 2 ^ (a - 53) < 2 ^ a := by
      have h253 : ((2:ℚ) ^ 53 - 1) < 2 ^ 53 := by norm_num
      have : ((2:ℚ) ^ 53 - 1) * 2 ^ (a - 53) < 2 ^ 53 * 2 ^ (a - 53) := by
        apply mul_lt_mul_of_pos_right h253 (by positivity)
      calc ((2:ℚ) ^ 53 - 1) * 2 ^ (a - 53) < 2 ^ 53 * 2 ^ (a - 53) := this
        _ = 2 ^ a := by
            rw [← zpow_natCast (2:ℚ) 53, ← zpow_add₀ (by norm_num : (2:ℚ) ≠ 0)]
            norm_num
    linarith

/-- Among grid points `k * s`, a point within half a step of `x` is nearest. -/
theorem grid_nearest (x s : ℝ) (hs : 0 < s) (k0 k : ℤ)
    (h : |x - (k0 : ℝ) * s| < s / 2) :
    |x - (k0 : ℝ) * s| ≤ |x - (k : ℝ) * s| := by
  rcases eq_or_ne k k0 with rfl | hne
  · exact le_refl _
  · have h1 : (1:ℝ) ≤ |(k : ℝ) - (k0 : ℝ)| := by
      exact_mod_cast Int.one_le_abs (sub_ne_zero.mpr hne)
    have hknorm : |(k : ℝ) * s - (k0 : ℝ) * s| = |(k : ℝ) - (k0 : ℝ)| * s := by
      rw [← sub_mul, abs_mul, abs_of_pos hs]
    have hbig : s ≤ |(k : ℝ) * s - (k0 : ℝ) * s| := by
      rw [hknorm]
      calc s = 1 * s := (one_mul s).symm
        _ ≤ |(k : ℝ) - (k0 : ℝ)| * s := mul_le_mul_of_nonneg_right h1 hs.le
    have htri : |(k : ℝ) * s - (k0 : ℝ) * s| ≤ |x - (k : ℝ) * s| + |x - (k0 : ℝ) * s| := by
      have heq : (k : ℝ) * s - (k0 : ℝ) * s = ((k : ℝ) * s - x) + (x - (k0 : ℝ) * s) := by ring
      rw [heq]
      calc |((k : ℝ) * s - x) + (x - (k0 : ℝ) * s)|
          ≤ |(k : ℝ) * s - x| + |x - (k0 : ℝ) * s| := abs_add _ _
        _ = |x - (k : ℝ) * s| + |x - (k0 : ℝ) * s| := by rw [abs_sub_comm]
    linarith

/-- Half an ulp: `2^(a-53)` is half of the binade step `2^(a-52)`. -/
theorem half_ulp (a : ℤ) : (2:ℝ) ^ (a - 52) / 2 = (2:ℝ) ^ (a - 53) := by
  rw [show a - 53 = (a - 52) - 1 by ring, zpow_sub_one₀ (by norm_num : (2:ℝ) ≠ 0)]
  ring

/-- A grid point of the binade `[2^a, 2^(a+1)]` that is within half an ulp of
`x`, and at least as close to `x` as the binade's endpoints, is a nearest
representable value to `x`. -/
theorem fp_nearest_of (x : ℝ) (a k0 : ℤ)
    (hrep : FpRep ((k0 : ℚ) * 2 ^ (a - 52)))
    (hd : |x - (((k0 : ℚ) * 2 ^ (a - 52) : ℚ) : ℝ)| < (2:ℝ) ^ (a - 53))
    (hbelow : |x - (((k0 : ℚ) * 2 ^ (a - 52) : ℚ) : ℝ)| ≤ x - (2:ℝ) ^ a)
    (habove : |x - (((k0 : ℚ) * 2 ^ (a - 52) : ℚ) : ℝ)| ≤ (2:ℝ) ^ (a + 1) - x) :
    NearestFp x ((k0 : ℚ) * 2 ^ (a - 52)) := by
  refine ⟨hrep, ?_⟩
  intro q' hq'
  by_cases h1 : (q' : ℝ) ≤ (2:ℝ) ^ a
  · have hle : x - (q' : ℝ) ≤ |x - (q' : ℝ)| := le_abs_self _
    linarith
  · by_cases h2 : (2:ℝ) ^ (a + 1) ≤ (q' : ℝ)
    · have hle : (q' : ℝ) - x ≤ |x - (q' : ℝ)| := by
        rw [abs_sub_comm]
        exact le_abs_self _
      linarith
    · push_neg at h1 h2
      have h1q : (2:ℚ) ^ a < q' := by
        have h1' : (((2:ℚ) ^ a : ℚ) : ℝ) < (q' : ℝ) := by
          push_cast
          exact h1
        exact_mod_cast h1'
      have h2q : q' < (2:ℚ) ^ (a + 1) := by
        have h2' : (q' : ℝ) < (((2:ℚ) ^ (a + 1) : ℚ) : ℝ) := by
          push_cast
          exact h2
        exact_mod_cast h2' 
      obtain ⟨k, rfl⟩ := fp_grid a q' hq' h1q h2q
      have hvR : (((k0 : ℚ) * 2 ^ (a - 52) : ℚ) : ℝ) = (k0 : ℝ) * (2:ℝ) ^ (a - 52) := by
        push_cast
        ring
      have hkR : (((k : ℚ) * 2 ^ (a - 52) : ℚ) : ℝ) = (k : ℝ) * (2:ℝ) ^ (a - 52) := by
        push_cast
        ring
      rw [hvR, hkR]
      apply grid_nearest x ((2:ℝ) ^ (a - 52)) (by positivity) k0 k
      rw [half_ulp, ← hvR]
      exact hd

/-- Conversely, any nearest representable value to such an `x` is that grid
point, provided `x` sits at least half an ulp inside the binade. -/
theorem fp_nearest_unique (x : ℝ) (a k0 : ℤ) (q : ℚ)
    (hq : NearestFp x q)
    (hrep : FpRep ((k0 : ℚ) * 2 ^ (a - 52)))
    (hd : |x - (((k0 : ℚ) * 2 ^ (a - 52) : ℚ) : ℝ)| < (2:ℝ) ^ (a - 53))
    (hlo : (2:ℝ) ^ a + (2:ℝ) ^ (a - 53) ≤ x)
    (hhi : x + (2:ℝ) ^ (a - 53) ≤ (2:ℝ) ^ (a + 1)) :
    q = (k0 : ℚ) * 2 ^ (a - 52) := by
  obtain ⟨hqrep, hmin⟩ := hq
  have hqd : |x - (q : ℝ)| < (2:ℝ) ^ (a - 53) := lt_of_le_of_lt (hmin _ hrep) hd
  obtain ⟨hqd1, hqd2⟩ := abs_lt.mp hqd
  have hq1 : (2:ℚ) ^ a < q := by
    have h1' : (((2:ℚ) ^ a : ℚ) : ℝ) < (q : ℝ) := by
      push_cast
      linarith
    exact_mod_cast h1'
  have hq2 : q < (2:ℚ) ^ (a + 1) := by
    have h2' : (q : ℝ) < (((2:ℚ) ^ (a + 1) : ℚ) : ℝ) := by
      push_cast
      linarith
    exact_mod_cast h2' 
  obtain ⟨k, rfl⟩ := fp_grid a q hqrep hq1 hq2
  have hvR : (((k0 : ℚ) * 2 ^ (a - 52) : ℚ) : ℝ) = (k0 : ℝ) * (2:ℝ) ^ (a - 52) := by
    push_cast
    ring
  have hkR : (((k : ℚ) * 2 ^ (a - 52) : ℚ) : ℝ) = (k : ℝ) * (2:ℝ) ^ (a - 52) := by
    push_cast
    ring
  have hkd : |x - (k : ℝ) * (2:ℝ) ^ (a - 52)| < (2:ℝ) ^ (a - 53) := by
    rw [← hkR]
    exact lt_of_le_of_lt (hmin _ hrep) hd
  have hk0d : |x - (k0 : ℝ) * (2:ℝ) ^ (a - 52)| < (2:ℝ) ^ (a - 53) := by
    rw [← hvR]
    exact hd
  have htri : |(k : ℝ) * (2:ℝ) ^ (a - 52) - (k0 : ℝ) * (2:ℝ) ^ (a - 52)|
      ≤ |x - (k : ℝ) * (2:ℝ) ^ (a - 52)| + |x - (k0 : ℝ) * (2:ℝ) ^ (a - 52)| := by
    have heq : (k : ℝ) * (2:ℝ) ^ (a - 52) - (k0 : ℝ) * (2:ℝ) ^ (a - 52)
        = ((k : ℝ) * (2:ℝ) ^ (a - 52) - x) + (x - (k0 : ℝ) * (2:ℝ) ^ (a - 52)) := by ring
    rw [heq]
    calc |((k : ℝ) * (2:ℝ) ^ (a - 52) - x) + (x - (k0 : ℝ) * (2:ℝ) ^ (a - 52))|
        ≤ |(k : ℝ) * (2:ℝ) ^ (a - 52) - x| + |x - (k0 : ℝ) * (2:ℝ) ^ (a - 52)| := abs_add _ _
      _ = |x - (k : ℝ) * (2:ℝ) ^ (a - 52)| + |x - (k0 : ℝ) * (2:ℝ) ^ (a - 52)| := by
          rw [abs_sub_comm]
  have hsum : (2:ℝ) ^ (a - 53) + (2:ℝ) ^ (a - 53) = (2:ℝ) ^ (a - 52) := by
    rw [show a - 52 = (a - 53) + 1 by ring, zpow_add_one₀ (by norm_num : (2:ℝ) ≠ 0)]
    ring
  have hdiff : |(k : ℝ) - (k0 : ℝ)| * (2:ℝ) ^ (a - 52) < (2:ℝ) ^ (a - 52) := by
    have heq2 : |(k : ℝ) - (k0 : ℝ)| * (2:ℝ) ^ (a - 52)
        = |(k : ℝ) * (2:ℝ) ^ (a - 52) - (k0 : ℝ) * (2:ℝ) ^ (a - 52)| := by
      rw [← sub_mul, abs_mul, abs_of_pos (by positivity : (0:ℝ) < (2:ℝ) ^ (a - 52))]
    rw [heq2]
    linarith
  have habs1 : |(k : ℝ) - (k0 : ℝ)| < 1 := by
    have hs : (0:ℝ) < (2:ℝ) ^ (a - 52) := by positivity
    by_contra hcon
    push_neg at hcon
    have : (2:ℝ) ^ (a - 52) ≤ |(k : ℝ) - (k0 : ℝ)| * (2:ℝ) ^ (a - 52) := by
      calc (2:ℝ) ^ (a - 52) = 1 * (2:ℝ) ^ (a - 52) := (one_mul _).symm
        _ ≤ |(k : ℝ) - (k0 : ℝ)| * (2:ℝ) ^ (a - 52) := mul_le_mul_of_nonneg_right hcon hs.le
    linarith
  have hkk : k = k0 := by
    have h1 : |k - k0| < 1 := by exact_mod_cast habs1
    have h2 := abs_lt.mp h1
    omega
  rw [hkk]

theorem sqrt2F_grid : sqrt2F = ((6369051672525773 : ℤ) : ℚ) * 2 ^ ((0:ℤ) - 52) := by
  rw [sqrt2F]
  norm_num

theorem sqSqrt2F_grid : sqSqrt2F = ((4503599627370497 : ℤ) : ℚ) * 2 ^ ((1:ℤ) - 52) := by
  rw [sqSqrt2F]
  norm_num

theorem cosFloatF_grid : cosFloatF = ((9007199254740990 : ℤ) : ℚ) * 2 ^ ((-1:ℤ) - 52) := by
  rw [cosFloatF]
  norm_num

theorem sqrt2F_rep : FpRep sqrt2F :=
  ⟨6369051672525773, -52, by norm_num, by rw [sqrt2F]; norm_num⟩

theorem sqSqrt2F_rep : FpRep sqSqrt2F :=
  ⟨4503599627370497, -51, by norm_num, by rw [sqSqrt2F]; norm_num⟩

theorem cosFloatF_rep : FpRep cosFloatF :=
  ⟨4503599627370495, -52, by norm_num, by rw [cosFloatF]; norm_num⟩

theorem sqrt2_ub : Real.sqrt 2 < (6369051672525773:ℝ) / 2 ^ 52 := by
  rw [Real.sqrt_lt' (by positivity)]
  rw [div_pow, lt_div_iff₀ (by positivity)]
  norm_num

theorem sqrt2_lb : (12738103345051545:ℝ) / 2 ^ 53 < Real.sqrt 2 := by
  rw [Real.lt_sqrt (by positivity)]
  rw [div_pow, div_lt_iff₀ (by positivity)]
  norm_num

theorem sqrt_step_nearest : NearestFp (Real.sqrt 2) sqrt2F := by
  have hub := sqrt2_ub
  have hlb := sqrt2_lb
  rw [sqrt2F_grid]
  apply fp_nearest_of
  · exact sqrt2F_grid ▸ sqrt2F_rep
  · rw [abs_lt]
    push_cast
    norm_num
    constructor <;> linarith
  · rw [abs_le]
    push_cast
    norm_num
    constructor <;> linarith
  · rw [abs_le]
    push_cast
    norm_num
    constructor <;> linarith

theorem sqrt_step_unique (q : ℚ) (hq : NearestFp (Real.sqrt 2) q) : q = sqrt2F := by
  have hub := sqrt2_ub
  have hlb := sqrt2_lb
  rw [sqrt2F_grid]
  apply fp_nearest_unique (Real.sqrt 2) 0 6369051672525773 q hq (sqrt2F_grid ▸ sqrt2F_rep)
  · rw [abs_lt]
    push_cast
    norm_num
    constructor <;> linarith
  · push_cast
    norm_num
    linarith
  · push_cast
    norm_num
    linarith

theorem sqrt2F_cast : (sqrt2F : ℝ) = (6369051672525773:ℝ) / 2 ^ 52 := by
  rw [sqrt2F]
  push_cast
  norm_num

theorem sqSqrt2F_cast : (sqSqrt2F : ℝ) = (4503599627370497:ℝ) / 2 ^ 51 := by
  rw [sqSqrt2F]
  push_cast
  norm_num

theorem mul_step_val : (sqrt2F : ℝ) * (sqrt2F : ℝ)
    = (40564819207303346393761349247529:ℝ) / 2 ^ 104 := by
  rw [sqrt2F_cast]
  rw [div_mul_div_comm]
  norm_num

theorem mul_step_nearest : NearestFp ((sqrt2F : ℝ) * (sqrt2F : ℝ)) sqSqrt2F := by
  rw [mul_step_val, sqSqrt2F_grid]
  apply fp_nearest_of
  · exact sqSqrt2F_grid ▸ sqSqrt2F_rep
  · rw [abs_lt]
    push_cast
    norm_num
  · rw [abs_le]
    push_cast
    norm_num
  · rw [abs_le]
    push_cast
    norm_num

theorem mul_step_unique (q : ℚ) (hq : NearestFp ((sqrt2F : ℝ) * (sqrt2F : ℝ)) q) :
    q = sqSqrt2F := by
  rw [mul_step_val] at hq
  rw [sqSqrt2F_grid]
  apply fp_nearest_unique ((40564819207303346393761349247529:ℝ) / 2 ^ 104) 1
      4503599627370497 q hq (sqSqrt2F_grid ▸ sqSqrt2F_rep)
  · rw [abs_lt]
    push_cast
    norm_num
  · push_cast
    norm_num
  · push_cast
    norm_num

theorem div_step_val : (2 : ℝ) / (sqSqrt2F : ℝ)
    = (4503599627370496:ℝ) / 4503599627370497 := by
  rw [sqSqrt2F_cast]
  rw [div_div_eq_mul_div]
  norm_num

theorem div_step_nearest : NearestFp ((2 : ℝ) / (sqSqrt2F : ℝ)) cosFloatF := by
  rw [div_step_val, cosFloatF_grid]
  apply fp_nearest_of
  · exact cosFloatF_grid ▸ cosFloatF_rep
  · rw [abs_lt]
    push_cast
    norm_num
  · rw [abs_le]
    push_cast
    norm_num
  · rw [abs_le]
    push_cast
    norm_num

theorem div_step_unique (q : ℚ) (hq : NearestFp ((2 : ℝ) / (sqSqrt2F : ℝ)) q) :
    q = cosFloatF := by
  rw [div_step_val] at hq
  rw [cosFloatF_grid]
  apply fp_nearest_unique ((4503599627370496:ℝ) / 4503599627370497) (-1)
      9007199254740990 q hq (cosFloatF_grid ▸ cosFloatF_rep)
  · rw [abs_lt]
    push_cast
    norm_num
  · push_cast
    norm_num
  · push_cast
    norm_num

theorem magnitude_vOneOne : magnitude vOneOne = Real.sqrt 2 := by
  rw [magnitude]
  norm_num [dims, vOneOne]

/-- Claim C5 (counterexample): at the non-zero profile `v = (1,1,0,0,0)`
the program computes `dot_product = 2` and `mag1 = mag2 = math.sqrt(2)`;
rounding every floating-point step of `cosine_similarity` correctly (as
IEEE 754 requires of `sqrt`, `*` and `/`) gives `math.sqrt(2) = sqrt2F`,
`mag1 * mag2 = sqSqrt2F ≠ 0` (so the zero guard does not fire), and the
returned value `2 / (mag1 * mag2) = cosFloatF = 0.9999999999999998 ≠ 1`:
the program does not return 1 on this non-zero vector. -/
theorem cosine_similarity_float_counterexample :
    vOneOne ≠ (fun _ => 0)
      ∧ dotProduct vOneOne vOneOne = 2
      ∧ magnitude vOneOne = Real.sqrt 2
      ∧ NearestFp (Real.sqrt 2) sqrt2F
      ∧ (∀ q : ℚ, NearestFp (Real.sqrt 2) q → q = sqrt2F)
      ∧ sqrt2F ≠ 0
      ∧ NearestFp ((sqrt2F : ℝ) * (sqrt2F : ℝ)) sqSqrt2F
      ∧ (∀ q : ℚ, NearestFp ((sqrt2F : ℝ) * (sqrt2F : ℝ)) q → q = sqSqrt2F)
      ∧ sqSqrt2F ≠ 0
      ∧ NearestFp ((2 : ℝ) / (sqSqrt2F : ℝ)) cosFloatF
      ∧ (∀ q : ℚ, NearestFp ((2 : ℝ) / (sqSqrt2F : ℝ)) q → q ≠ 1)
      ∧ cosFloatF ≠ 1 := by
  refine ⟨?_, by decide, magnitude_vOneOne, sqrt_step_nearest, sqrt_step_unique,
    by rw [sqrt2F]; norm_num, mul_step_nearest, mul_step_unique,
    by rw [sqSqrt2F]; norm_num, div_step_nearest, ?_, by rw [cosFloatF]; norm_num⟩
  · intro h
    have h1 := congrFun h Dim.struct
    simp [vOneOne] at h1
  · intro q hq
    rw [div_step_unique q hq, cosFloatF]
    norm_num

/-- Claim C5 (amended): `cosine_similarity` returns 0 whenever either input
vector has magnitude 0; for every non-zero vector `v` the exact real value
of `cosine_similarity v v` is 1, but the program's binary64 evaluation need
not return 1: every correctly-rounded evaluation of the division the
program performs at the profile `(1,1,0,0,0)` yields a value different
from 1 (namely `0.9999999999999998`). -/
theorem cosine_similarity_amended (v w : Dim → Int) :
    (magnitude v = 0 ∨ magnitude w = 0 → cosine_similarity v w = 0)
      ∧ (v ≠ (fun _ => 0) → cosine_similarity v v = 1)
      ∧ (∀ q : ℚ, NearestFp ((2 : ℝ) / (sqSqrt2F : ℝ)) q → q ≠ 1) := by
  refine ⟨?_, ?_, ?_⟩
  · intro h
    rw [cosine_similarity, if_pos h]
  · intro hv
    have hpos : 0 < dotProduct v v := dot_self_pos v hv
    have hsum := sumsq_eq_dot v
    have hmag : magnitude v = Real.sqrt ((dotProduct v v : Int) : ℝ) := by
      rw [magnitude, hsum]
    have hcast : (0:ℝ) < ((dotProduct v v : Int) : ℝ) := by exact_mod_cast hpos
    have hm0 : magnitude v ≠ 0 := by
      rw [hmag]
      exact ne_of_gt (Real.sqrt_pos.mpr hcast)
    rw [cosine_similarity, if_neg (by push_neg; exact ⟨hm0, hm0⟩)]
    rw [hmag, Real.mul_self_sqrt hcast.le]
    exact div_self (ne_of_gt hcast)
  · intro q hq
    rw [div_step_unique q hq, cosFloatF]
    norm_num

theorem tier_profiles_nonneg (t : Tier) (d : Dim) : 0 ≤ TIER_PROFILES t d := by
  cases t <;> cases d <;> decide

theorem dot_nonneg (v w : Dim → Int) (hv : ∀ d, 0 ≤ v d) (hw : ∀ d, 0 ≤ w d) :
    0 ≤ dotProduct v w := by
  have h1 := mul_nonneg (hv Dim.struct) (hw Dim.struct)
  have h2 := mul_nonneg (hv Dim.documentation) (hw Dim.documentation)
  have h3 := mul_nonneg (hv Dim.tests) (hw Dim.tests)
  have h4 := mul_nonneg (hv Dim.commits) (hw Dim.commits)
  have h5 := mul_nonneg (hv Dim.dependencies) (hw Dim.dependencies)
  simp only [dotProduct, dims, List.map_cons, List.map_nil, List.sum_cons, List.sum_nil]
  linarith

theorem cos_nonneg_of_nonneg (p : Dim → Int) (hp : ∀ d, 0 ≤ p d) (t : Tier) :
    0 ≤ cosine_similarity p (TIER_PROFILES t) := by
  rw [cosine_similarity]
  split_ifs with h
  · exact le_refl 0
  · apply div_nonneg
    · exact_mod_cast dot_nonneg p _ hp (tier_profiles_nonneg t)
    · exact mul_nonneg (magnitude_nonneg _) (magnitude_nonneg _)

/-- Claim C4: for every profile vector (non-negative scores, per the data
model), `match_tier` returns the tier of strictly highest cosine
similarity, ties resolving to the earliest tier in the fixed order
beginner, intermediate, advanced; the all-zero profile (similarity 0
everywhere) matches beginner with similarity 0. -/
theorem match_tier_first_argmax (p : Dim → Int) (hp : ∀ d, 0 ≤ p d) :
    (∃ t : Tier,
      match_tier p = (some t, cosine_similarity p (TIER_PROFILES t))
        ∧ (∀ u : Tier,
            cosine_similarity p (TIER_PROFILES u) ≤ cosine_similarity p (TIER_PROFILES t))
        ∧ (∀ u : Tier, tierIdx u < tierIdx t →
            cosine_similarity p (TIER_PROFILES u) < cosine_similarity p (TIER_PROFILES t)))
      ∧ match_tier (fun _ => 0) = (some Tier.beginner, 0) := by
  constructor
  · have hb := cos_nonneg_of_nonneg p hp Tier.beginner
    have h1 : cosine_similarity p (TIER_PROFILES Tier.beginner) > (-1:ℝ) := by linarith
    by_cases h2 : cosine_similarity p (TIER_PROFILES Tier.intermediate)
        > cosine_similarity p (TIER_PROFILES Tier.beginner)
    · by_cases h3 : cosine_similarity p (TIER_PROFILES Tier.advanced)
          > cosine_similarity p (TIER_PROFILES Tier.intermediate)
      · refine ⟨Tier.advanced, ?_, ?_, ?_⟩
        · simp [match_tier, tierList, h1, h2, h3]
        · intro u
          cases u
          · linarith
          · linarith
          · exact le_refl _
        · intro u hu
          cases u
          · linarith
          · linarith
          · simp [tierIdx] at hu
      · refine ⟨Tier.intermediate, ?_, ?_, ?_⟩
        · simp [match_tier, tierList, h1, h2, h3]
        · intro u
          cases u
          · linarith
          · exact le_refl _
          · linarith
        · intro u hu
          cases u
          · linarith
          · simp [tierIdx] at hu
          · simp [tierIdx] at hu
    · by_cases h3 : cosine_similarity p (TIER_PROFILES Tier.advanced)
          > cosine_similarity p (TIER_PROFILES Tier.beginner)
      · refine ⟨Tier.advanced, ?_, ?_, ?_⟩
        · simp [match_tier, tierList, h1, h2, h3]
        · intro u
          cases u
          · linarith
          · linarith
          · exact le_refl _
        · intro u hu
          cases u
          · linarith
          · linarith
          · simp [tierIdx] at hu
      · refine ⟨Tier.beginner, ?_, ?_, ?_⟩
        · simp [match_tier, tierList, h1, h2, h3]
        · intro u
          cases u
          · exact le_refl _
          · linarith
          · linarith
        · intro u hu
          cases u
          · simp [tierIdx] at hu
          · simp [tierIdx] at hu
          · simp [tierIdx] at hu
  · have hz : ∀ t : Tier, cosine_similarity (fun _ => (0:Int)) (TIER_PROFILES t) = 0 := by
      intro t
      rw [cosine_similarity, if_pos]
      left
      simp [magnitude, dims]
    norm_num [match_tier, tierList, hz]

/-- Witness for `match_tier_first_argmax` at the all-zero profile. -/
theorem match_tier_first_argmax_witness :
    (∃ t : Tier,
      match_tier (fun _ => (0:Int)) = (some t, cosine_similarity (fun _ => (0:Int)) (TIER_PROFILES t))
        ∧ (∀ u : Tier, cosine_similarity (fun _ => (0:Int)) (TIER_PROFILES u)
            ≤ cosine_similarity (fun _ => (0:Int)) (TIER_PROFILES t))
        ∧ (∀ u : Tier, tierIdx u < tierIdx t →
            cosine_similarity (fun _ => (0:Int)) (TIER_PROFILES u)
              < cosine_similarity (fun _ => (0:Int)) (TIER_PROFILES t)))
      ∧ match_tier (fun _ => 0) = (some Tier.beginner, 0) :=
  match_tier_first_argmax (fun _ => 0) (fun d => le_refl 0)
